import Mathlib

/-!
Verification of the synchronization decision engine of the pdd repository
(sync_determine_operation and its companions).  The engine itself is not
shipped in this source snapshot (only its test suite is), so every
definition below is modelled from the natural-language specification,
faithful to the wording of the spec and consistent with the assertions of
tests/test_sync_determine_operation.py.
-/

namespace PddSync

/-- Diagnostic values stored in the details mapping of a SyncDecision. -/
inductive DVal where
  | b (v : Bool)
  | i (v : Int)
  | s (v : String)
  | ls (v : List String)
  deriving Repr, DecidableEq

/-- Modelled from the spec: the SyncDecision record produced by the Decision
Engine (spec section 3): operation, human-readable reason, confidence,
estimated cost (LLM branch only) and a mapping of diagnostic details. -/
structure SyncDecision where
  operation : String
  reason : String
  confidence : ℚ
  estimated_cost : ℚ
  details : List (String × DVal)
  deriving Repr, DecidableEq

/-- Modelled from the spec: the Fingerprint record persisted per unit
(spec section 3), with each artifact hash a string or absent. -/
structure Fingerprint where
  pdd_version : String
  timestamp : String
  command : String
  prompt_hash : Option String
  code_hash : Option String
  example_hash : Option String
  test_hash : Option String
  deriving Repr, DecidableEq

/-- Modelled from the spec: the RunReport record persisted per unit
(spec section 3): exit code of the last run, test counts and coverage. -/
structure RunReport where
  timestamp : String
  exit_code : Int
  tests_passed : Nat
  tests_failed : Nat
  coverage : ℚ
  deriving Repr, DecidableEq

/-- Modelled from the spec: the inputs of the pure Decision Engine
(spec section 4.3): optional Fingerprint, optional RunReport, the live
content hash of each artifact (absent exactly when the file is missing),
the dependency-marker detector verdict on the prompt text, and the flags.
The logMode flag is omitted: per Tier 0 it only disables lock usage by the
caller and changes no decision rule. -/
structure SyncInputs where
  fingerprint : Option Fingerprint
  runReport : Option RunReport
  promptHash : Option String
  codeHash : Option String
  exampleHash : Option String
  testHash : Option String
  promptHasDeps : Bool
  skipTests : Bool
  skipVerify : Bool
  targetCoverage : ℚ
  deriving Repr, DecidableEq

/-- Substring containment, stated over the character lists of the strings. -/
def strContains (s pat : String) : Prop :=
  ∃ pre post : List Char, s.data = pre ++ pat.data ++ post

/-- Modelled from the spec: percentages are rendered to one decimal place in
the coverage reason.  For a nonnegative rational q this computes the decimal
rendering of q rounded to tenths (round half up), using only integer
arithmetic on the numerator and denominator. -/
def fmt1 (q : ℚ) : String :=
  let t : Int := Int.fdiv (20 * q.num + (q.den : Int)) (2 * (q.den : Int))
  toString (Int.fdiv t 10) ++ "." ++ toString (Int.emod t 10)

/-- Presence flags of the three generated artifacts of a unit. -/
structure ArtifactPresence where
  hasCode : Bool
  hasExample : Bool
  hasTest : Bool
  deriving Repr, DecidableEq

/-- The live presence of the generated artifacts, read off the live hashes. -/
def presence (inp : SyncInputs) : ArtifactPresence :=
  ⟨inp.codeHash.isSome, inp.exampleHash.isSome, inp.testHash.isSome⟩

/-- Modelled from the spec: for each artifact that the Fingerprint expects to
exist (non-absent recorded hash) report whether its live file exists; with no
Fingerprint nothing is expected and the mapping is empty (spec section 4.3
Tier 3 and the edge-case tests). -/
def validate_expected_files (fp : Option Fingerprint) (p : ArtifactPresence) :
    List (String × Bool) :=
  match fp with
  | none => []
  | some fp =>
      (if fp.code_hash.isSome then [("code", p.hasCode)] else []) ++
      (if fp.example_hash.isSome then [("example", p.hasExample)] else []) ++
      (if fp.test_hash.isSome then [("test", p.hasTest)] else [])

/-- The names of the expected artifacts whose live file is missing. -/
def missing_expected (fp : Option Fingerprint) (p : ArtifactPresence) :
    List String :=
  ((validate_expected_files fp p).filter (fun e => !e.2)).map Prod.fst

/-- Modelled from the spec: workflow completeness requires the code and
example files; the test file requirement is waived by skipTests. -/
def _is_workflow_complete (p : ArtifactPresence) (skipTests : Bool) : Bool :=
  p.hasCode && p.hasExample && (p.hasTest || skipTests)

/-- Modelled from the spec: recovery decision when artifacts the Fingerprint
expects are missing (spec section 4.3 Tier 3, second bullet): missing code
has priority and regenerates, then missing example, then the missing test is
either waived under skipTests or regenerated. -/
def _handle_missing_expected_files (missing : List String) (skipTests : Bool) :
    SyncDecision :=
  if missing.contains "code" then
    { operation := "generate"
      reason := "Code file missing - regenerate from prompt"
      confidence := 1, estimated_cost := 0
      details := [("missing_files", DVal.ls missing)] }
  else if missing.contains "example" then
    { operation := "example"
      reason := "Example file missing - regenerate from code"
      confidence := 1, estimated_cost := 0
      details := [("missing_files", DVal.ls missing)] }
  else if skipTests then
    { operation := "nothing"
      reason := "Test file missing but skip-tests specified"
      confidence := 1, estimated_cost := 0
      details := [("skip_tests", DVal.b true), ("missing_files", DVal.ls missing)] }
  else
    { operation := "test"
      reason := "Test file missing - regenerate tests"
      confidence := 1, estimated_cost := 0
      details := [("missing_files", DVal.ls missing)] }

/-- Modelled from the spec: example-success history holds when the recorded
command of the Fingerprint is a prior verify or test completion, evidenced by
a non-absent example hash (spec section 4.3 Tier 1 rule 1). -/
def example_success_history (fp : Fingerprint) : Bool :=
  (fp.command == "verify" || fp.command == "test") && fp.example_hash.isSome

/-- The crash decision taken when there is no successful example history. -/
def crash_no_history (rr : RunReport) : SyncDecision :=
  { operation := "crash"
    reason := "Runtime error detected, no successful example history"
    confidence := 17/20, estimated_cost := 0
    details := [("example_success_history", DVal.b false),
                ("exit_code", DVal.i rr.exit_code)] }

/-- Modelled from the spec: Tier 1 rule 1 (spec section 4.3).  On a nonzero
exit code: a Fingerprint whose last command was itself crash yields verify;
otherwise example-success history yields fix in preference to crash; and
without any successful example history the decision is crash. -/
def crash_rule (fp : Option Fingerprint) (rr : RunReport) : SyncDecision :=
  match fp with
  | some fp =>
      if fp.command = "crash" then
        { operation := "verify"
          reason := "Previous crash operation completed - re-verify example"
          confidence := 17/20, estimated_cost := 0
          details := [("previous_command", DVal.s fp.command),
                      ("exit_code", DVal.i rr.exit_code)] }
      else if example_success_history fp then
        { operation := "fix"
          reason := "Runtime error detected, context-aware: prefer fix over crash since example has run successfully before"
          confidence := 17/20, estimated_cost := 0
          details := [("example_success_history", DVal.b true),
                      ("exit_code", DVal.i rr.exit_code)] }
      else crash_no_history rr
  | none => crash_no_history rr

/-- Modelled from the spec: Tier 2, the no-Fingerprint (new unit) rules
(spec section 4.3): prompt absent yields nothing; a present prompt yields
auto-deps when the dependency-marker detector fires and generate otherwise. -/
def tier2_no_fingerprint (inp : SyncInputs) : SyncDecision :=
  if inp.promptHash = none then
    { operation := "nothing"
      reason := "No prompt file and no history"
      confidence := 1, estimated_cost := 0
      details := [] }
  else if inp.promptHasDeps then
    { operation := "auto-deps"
      reason := "New prompt with dependencies detected"
      confidence := 9/10, estimated_cost := 0
      details := [("has_dependencies", DVal.b true),
                  ("fingerprint_found", DVal.b false)] }
  else
    { operation := "generate"
      reason := "New prompt ready"
      confidence := 9/10, estimated_cost := 0
      details := [("has_dependencies", DVal.b false)] }

/-- The set of artifacts whose live content hash differs from the hash the
Fingerprint recorded for that artifact (spec glossary: changed file). -/
def changed_files (fp : Fingerprint) (inp : SyncInputs) : List String :=
  (if inp.promptHash ≠ fp.prompt_hash then ["prompt"] else []) ++
  (if inp.codeHash ≠ fp.code_hash then ["code"] else []) ++
  (if inp.exampleHash ≠ fp.example_hash then ["example"] else []) ++
  (if inp.testHash ≠ fp.test_hash then ["test"] else [])

/-- Modelled from the spec: the decision when exactly one artifact changed
(spec section 4.3 Tier 3): a changed prompt goes through the same
dependency-marker check as Tier 2, a changed code file yields update, a
changed test yields test and a changed example yields verify. -/
def single_change (a : String) (inp : SyncInputs) : SyncDecision :=
  if a = "prompt" then
    if inp.promptHasDeps then
      { operation := "auto-deps"
        reason := "Prompt changed and dependencies detected"
        confidence := 17/20, estimated_cost := 0
        details := [("has_dependencies", DVal.b true)] }
    else
      { operation := "generate"
        reason := "Prompt changed - regenerate code"
        confidence := 17/20, estimated_cost := 0
        details := [("has_dependencies", DVal.b false)] }
  else if a = "code" then
    { operation := "update"
      reason := "Code changed - update prompt to match"
      confidence := 17/20, estimated_cost := 0
      details := [] }
  else if a = "test" then
    { operation := "test"
      reason := "Test changed - re-run tests"
      confidence := 17/20, estimated_cost := 0
      details := [] }
  else
    { operation := "verify"
      reason := "Example changed - verify behavior"
      confidence := 17/20, estimated_cost := 0
      details := [] }

/-- Modelled from the spec: Tier 3, the Fingerprint-present rules (spec
section 4.3): the auto-deps special case first, then recovery for missing
expected files, then the zero, one or many changed-files branches. -/
def tier3_fingerprint (fp : Fingerprint) (inp : SyncInputs) : SyncDecision :=
  if fp.command = "auto-deps" ∧ inp.codeHash = none then
    { operation := "generate"
      reason := "Auto-deps completed, now generate missing code file"
      confidence := 9/10, estimated_cost := 0
      details := [("auto_deps_completed", DVal.b true),
                  ("previous_command", DVal.s "auto-deps"),
                  ("code_exists", DVal.b false)] }
  else
    let p := presence inp
    let missing := missing_expected (some fp) p
    if missing ≠ [] then _handle_missing_expected_files missing inp.skipTests
    else
      match changed_files fp inp with
      | [] =>
          if _is_workflow_complete p inp.skipTests then
            if p.hasTest then
              { operation := "nothing"
                reason := "All required files synchronized"
                confidence := 1, estimated_cost := 0
                details := [] }
            else
              { operation := "nothing"
                reason := "All required files synchronized (skip_tests=True)"
                confidence := 1, estimated_cost := 0
                details := [("skip_tests", DVal.b true)] }
          else if !p.hasCode then
            { operation := "generate"
              reason := "Code file missing - generate from prompt"
              confidence := 1, estimated_cost := 0
              details := [] }
          else if !p.hasExample then
            { operation := "example"
              reason := "Code exists but example missing"
              confidence := 1, estimated_cost := 0
              details := [] }
          else
            { operation := "test"
              reason := "Example verified but tests missing"
              confidence := 1, estimated_cost := 0
              details := [] }
      | [a] => single_change a inp
      | l =>
          { operation := "analyze_conflict"
            reason := "Multiple files changed: " ++ String.intercalate ", " l
            confidence := 1/2, estimated_cost := 0
            details := [("changed_files", DVal.ls l)] }

/-- Tiers 2 and 3 combined: dispatch on the presence of a Fingerprint. -/
def tier23 (inp : SyncInputs) : SyncDecision :=
  match inp.fingerprint with
  | none => tier2_no_fingerprint inp
  | some fp => tier3_fingerprint fp inp

/-- Modelled from the spec: the priority-ordered decision engine of the
missing module pdd/sync_determine_operation.py (spec section 4.3).  Tier 1
(runtime signals) applies only when a RunReport exists: nonzero exit code
first, then test failures, then low coverage (yielding all_synced instead
of test under skipTests); when no Tier 1 rule fires the engine falls
through to Tiers 2 and 3. -/
def sync_determine_operation (inp : SyncInputs) : SyncDecision :=
  match inp.runReport with
  | some rr =>
      if rr.exit_code ≠ 0 then crash_rule inp.fingerprint rr
      else if 0 < rr.tests_failed then
        { operation := "fix"
          reason := "Test failures detected"
          confidence := 9/10, estimated_cost := 0
          details := [("tests_failed", DVal.i (Int.ofNat rr.tests_failed))] }
      else if rr.coverage < inp.targetCoverage then
        if inp.skipTests then
          { operation := "all_synced"
            reason := "Coverage below target but tests skipped by flag"
            confidence := 9/10, estimated_cost := 0
            details := [("skip_tests", DVal.b true)] }
        else
          { operation := "test"
            reason := "Coverage " ++ fmt1 rr.coverage ++ "% below target " ++
              fmt1 inp.targetCoverage ++ "%"
            confidence := 9/10, estimated_cost := 0
            details := [] }
      else tier23 inp
  | none => tier23 inp

/-- Whether no Tier 1 runtime-signal rule fires: there is no RunReport, or
the report shows a clean exit, no test failures and coverage at target. -/
def tier1_passes (inp : SyncInputs) : Bool :=
  match inp.runReport with
  | none => true
  | some rr =>
      rr.exit_code == 0 && rr.tests_failed == 0 &&
        decide (inp.targetCoverage ≤ rr.coverage)

/-- Modelled from the spec: the structured reply the Conflict Resolver
requires from the LLM (spec section 4.4): next_operation, reason and a
confidence in the unit interval. -/
structure ParsedReply where
  next_operation : String
  reason : String
  confidence : ℚ
  deriving Repr, DecidableEq

/-- Modelled from the spec: the outcome of the LLM invocation seen by the
Conflict Resolver: an exception during invocation, or a reply whose text
either parses to the required structured data or does not (a non-JSON reply
and a reply missing required keys both parse to nothing), together with the
reported invocation cost. -/
inductive LLMOutcome where
  | exn
  | reply (parsed : Option ParsedReply) (cost : ℚ)
  deriving Repr, DecidableEq

/-- Modelled from the spec: the Conflict Resolver analyze_conflict_with_llm
of the missing module pdd/sync_determine_operation.py (spec section 4.4).
It is a total function, so no failure propagates: a missing analysis
template, an
exception, and an unparsable reply each collapse to
fail_and_request_manual_merge with confidence 0; a parsed reply below the
acceptance threshold collapses to fail_and_request_manual_merge preserving
the reported confidence; a parsed reply at or above the threshold is
accepted verbatim with the reported confidence and invocation cost. -/
def analyze_conflict_with_llm (template : Option String) (outcome : LLMOutcome)
    (threshold : ℚ) : SyncDecision :=
  match template with
  | none =>
      { operation := "fail_and_request_manual_merge"
        reason := "LLM analysis template not found"
        confidence := 0, estimated_cost := 0, details := [] }
  | some _ =>
      match outcome with
      | .exn =>
          { operation := "fail_and_request_manual_merge"
            reason := "Exception during conflict analysis"
            confidence := 0, estimated_cost := 0, details := [] }
      | .reply none _ =>
          { operation := "fail_and_request_manual_merge"
            reason := "Invalid LLM response"
            confidence := 0, estimated_cost := 0, details := [] }
      | .reply (some p) cost =>
          if threshold ≤ p.confidence then
            { operation := p.next_operation
              reason := "LLM analysis: " ++ p.reason
              confidence := p.confidence, estimated_cost := cost, details := [] }
          else
            { operation := "fail_and_request_manual_merge"
              reason := "LLM confidence too low"
              confidence := p.confidence, estimated_cost := 0, details := [] }

/-- Outcome of a lock acquisition attempt: success carrying the new lock
file content, or failure carrying the error message and the unchanged lock
file content. -/
inductive AcquireOutcome where
  | ok (lockFile : Option Nat)
  | held (msg : String) (lockFile : Option Nat)
  deriving Repr, DecidableEq

/-- Modelled from the spec: SyncLock.acquire of the missing module
pdd/sync_determine_operation.py (spec section 4.1) over a lock file holding
the recorded PID (absent when no lock file exists) and a PID
liveness capability.  Absent file: created with the caller PID.  Present
with the caller own PID: reentrant no-op.  Present with a live other PID:
fails naming the holder, leaving the file unchanged.  Present with a dead
PID: the stale lock is reclaimed and rewritten with the caller PID. -/
def SyncLock_acquire (alive : Nat → Bool) (self : Nat) (lockFile : Option Nat) :
    AcquireOutcome :=
  match lockFile with
  | none => .ok (some self)
  | some p =>
      if p = self then .ok (some p)
      else if alive p then
        .held ("Lock held by running process " ++ toString p) (some p)
      else .ok (some self)

/-- Content of one metadata file as the State Store sees it: raw unparsable
text, a parsed Fingerprint, or a parsed RunReport. -/
inductive FileData where
  | raw (s : String)
  | fpData (fp : Fingerprint)
  | rrData (rr : RunReport)
  deriving Repr, DecidableEq

/-- Modelled from the spec: the State Store write of a Fingerprint record
(spec section 4.2), updating the metadata file at the given path. -/
def write_fingerprint (store : String → Option FileData) (path : String)
    (fp : Fingerprint) : String → Option FileData :=
  fun q => if q = path then some (.fpData fp) else store q

/-- Modelled from the spec: the State Store write of a RunReport record. -/
def write_run_report (store : String → Option FileData) (path : String)
    (rr : RunReport) : String → Option FileData :=
  fun q => if q = path then some (.rrData rr) else store q

/-- Modelled from the spec: readFingerprint (spec section 4.2) yields absent
on a missing file or any parse failure; parse failure is swallowed. -/
def read_fingerprint (store : String → Option FileData) (path : String) :
    Option Fingerprint :=
  match store path with
  | some (.fpData fp) => some fp
  | _ => none

/-- Modelled from the spec: readRunReport, with the same absence rule. -/
def read_run_report (store : String → Option FileData) (path : String) :
    Option RunReport :=
  match store path with
  | some (.rrData rr) => some rr
  | _ => none

/-- Modelled from the spec: a deterministic content hash (spec section 4.2).
The digest algorithm itself is external to the claims; this stand-in is a
deterministic 64-bit polynomial fold of the characters. -/
def hashString (s : String) : Nat :=
  s.data.foldl (fun h c => (h * 31 + c.toNat) % (2 ^ 64)) 5381

/-- Modelled from the spec: calculate_sha256 over a textual file system:
absent when the file does not exist, never an error for a missing file. -/
def calculate_sha256 (fs : String → Option String) (path : String) :
    Option Nat :=
  (fs path).map hashString

/-! Concrete states used by the witnesses of the claim theorems. -/

/-- A Fingerprint whose last recorded command was crash. -/
def fpCrash : Fingerprint :=
  ⟨"1.0", "t", "crash", some "p", some "c", some "e", some "t"⟩

/-- A RunReport recording a runtime failure. -/
def rrCrash : RunReport := ⟨"t", 1, 0, 0, 0⟩

/-- Crash-report state whose Fingerprint records a crash command. -/
def inpC1 : SyncInputs :=
  ⟨some fpCrash, some rrCrash, some "p", some "c", some "e", some "t",
   false, false, false, 90⟩

/-- A Fingerprint after a generate, with a stale code hash on record. -/
def fpGen : Fingerprint :=
  ⟨"1.0", "t", "generate", some "p", some "c0", none, none⟩

/-- State where only the code artifact changed against the Fingerprint. -/
def inpC2 : SyncInputs :=
  ⟨some fpGen, none, some "p", some "c1", none, none,
   false, false, false, 90⟩

/-- Fresh-unit state: a plain prompt and no history at all. -/
def inpC3 : SyncInputs :=
  ⟨none, none, some "p", none, none, none, false, false, false, 90⟩

/-- A RunReport with a clean exit but failing tests. -/
def rrFailures : RunReport := ⟨"t", 0, 5, 2, 80⟩

/-- State whose RunReport shows test failures. -/
def inpC4 : SyncInputs :=
  ⟨none, some rrFailures, some "p", some "c", some "e", some "t",
   false, false, false, 90⟩

/-- A Fingerprint recording a completed auto-deps with no code hash. -/
def fpAutoDeps : Fingerprint :=
  ⟨"1.0", "t", "auto-deps", some "p", none, none, none⟩

/-- State right after auto-deps completed, code file still missing. -/
def inpC5 : SyncInputs :=
  ⟨some fpAutoDeps, none, some "p", none, none, none,
   true, false, false, 90⟩

/-- A Fingerprint of a fully synchronized unit. -/
def fpSynced : Fingerprint :=
  ⟨"1.0", "t", "test", some "p", some "c", some "e", some "t"⟩

/-- Fully synchronized state: every live hash matches the Fingerprint. -/
def inpC9 : SyncInputs :=
  ⟨some fpSynced, none, some "p", some "c", some "e", some "t",
   false, false, false, 90⟩

/-! Helper lemmas shared by the claim theorems. -/

/-- When no Tier 1 rule fires the engine falls through to Tiers 2 and 3. -/
lemma sync_eq_tier23 (inp : SyncInputs) (h : tier1_passes inp = true) :
    sync_determine_operation inp = tier23 inp := by
  unfold tier1_passes at h
  match hr : inp.runReport with
  | none => simp [sync_determine_operation, hr]
  | some rr =>
      rw [hr] at h
      simp only [Bool.and_eq_true, beq_iff_eq, decide_eq_true_eq] at h
      obtain ⟨⟨h1, h2⟩, h3⟩ := h
      simp [sync_determine_operation, hr, h1, h2, not_lt.mpr h3]

/-- With a Fingerprint present, Tiers 2 and 3 take the Tier 3 branch. -/
lemma tier23_some (inp : SyncInputs) (fp : Fingerprint)
    (h : inp.fingerprint = some fp) : tier23 inp = tier3_fingerprint fp inp := by
  simp [tier23, h]

/-- The Bool example-success test unfolded to its propositional content. -/
lemma example_success_history_eq_true (fp : Fingerprint) :
    example_success_history fp = true ↔
      (fp.command = "verify" ∨ fp.command = "test") ∧
        fp.example_hash.isSome = true := by
  simp [example_success_history]

/-- Claim C1: with a RunReport whose exit code is nonzero, a Fingerprint
whose recorded command is crash yields verify with a reason containing
Previous crash operation completed; otherwise a prior verify or test
command with a non-absent example hash yields fix with a reason containing
prefer fix over crash, details example_success_history true and the exit
code recorded; otherwise (including with no Fingerprint at all) the
decision is crash with a reason containing no successful example history
and details example_success_history false. -/
theorem claim_C1_crash_rules (inp : SyncInputs) (rr : RunReport)
    (fp : Fingerprint) (hr : inp.runReport = some rr)
    (hx : rr.exit_code ≠ 0) :
    (inp.fingerprint = some fp → fp.command = "crash" →
      (sync_determine_operation inp).operation = "verify" ∧
      strContains (sync_determine_operation inp).reason
        "Previous crash operation completed") ∧
    (inp.fingerprint = some fp → fp.command ≠ "crash" →
      (fp.command = "verify" ∨ fp.command = "test") →
      fp.example_hash.isSome = true →
      (sync_determine_operation inp).operation = "fix" ∧
      strContains (sync_determine_operation inp).reason
        "prefer fix over crash" ∧
      ((sync_determine_operation inp).details.lookup "example_success_history"
        = some (DVal.b true)) ∧
      ((sync_determine_operation inp).details.lookup "exit_code"
        = some (DVal.i rr.exit_code))) ∧
    (inp.fingerprint = some fp → fp.command ≠ "crash" →
      ¬((fp.command = "verify" ∨ fp.command = "test") ∧
          fp.example_hash.isSome = true) →
      (sync_determine_operation inp).operation = "crash" ∧
      strContains (sync_determine_operation inp).reason
        "no successful example history" ∧
      ((sync_determine_operation inp).details.lookup "example_success_history"
        = some (DVal.b false))) ∧
    (inp.fingerprint = none →
      (sync_determine_operation inp).operation = "crash" ∧
      strContains (sync_determine_operation inp).reason
        "no successful example history" ∧
      ((sync_determine_operation inp).details.lookup "example_success_history"
        = some (DVal.b false))) := by
  have hs : sync_determine_operation inp = crash_rule inp.fingerprint rr := by
    simp [sync_determine_operation, hr, hx]
  refine ⟨?_, ?_, ?_, ?_⟩
  · intro hf hc
    rw [hs, hf]
    simp only [crash_rule]
    rw [if_pos hc]
    exact ⟨rfl, ⟨[], " - re-verify example".data, rfl⟩⟩
  · intro hf hc hcmd hex
    have hh : example_success_history fp = true :=
      (example_success_history_eq_true fp).mpr ⟨hcmd, hex⟩
    rw [hs, hf]
    simp only [crash_rule]
    rw [if_neg hc, if_pos hh]
    exact ⟨rfl,
      ⟨"Runtime error detected, context-aware: ".data,
       " since example has run successfully before".data, rfl⟩,
      rfl, rfl⟩
  · intro hf hc hno
    have hh : ¬(example_success_history fp = true) := fun hcase =>
      hno ((example_success_history_eq_true fp).mp hcase)
    rw [hs, hf]
    simp only [crash_rule]
    rw [if_neg hc, if_neg hh]
    exact ⟨rfl, ⟨"Runtime error detected, ".data, [], rfl⟩, rfl⟩
  · intro hf
    rw [hs, hf]
    simp only [crash_rule]
    exact ⟨rfl, ⟨"Runtime error detected, ".data, [], rfl⟩, rfl⟩

/-- Witness for claim C1 at a concrete crash-after-crash state. -/
theorem claim_C1_witness :
    (sync_determine_operation inpC1).operation = "verify" := by
  have h := claim_C1_crash_rules inpC1 rrCrash fpCrash rfl (by decide)
  exact (h.1 rfl rfl).1

/-- Claim C2: with a Fingerprint present, no Tier 1 rule firing, the
auto-deps special case not applying and no expected artifact missing:
exactly one changed artifact determines the decision (prompt through the
dependency-marker check, code yields update with a reason containing Code
changed, test yields test, example yields verify), and more than one
changed artifact yields analyze_conflict with a reason containing Multiple
files changed and details changed_files listing every changed artifact. -/
theorem claim_C2_changed_files (inp : SyncInputs) (fp : Fingerprint)
    (h1 : tier1_passes inp = true)
    (h2 : inp.fingerprint = some fp)
    (h3 : ¬(fp.command = "auto-deps" ∧ inp.codeHash = none))
    (h4 : missing_expected (some fp) (presence inp) = []) :
    (changed_files fp inp = ["prompt"] →
      (inp.promptHasDeps = true →
        (sync_determine_operation inp).operation = "auto-deps") ∧
      (inp.promptHasDeps = false →
        (sync_determine_operation inp).operation = "generate")) ∧
    (changed_files fp inp = ["code"] →
      (sync_determine_operation inp).operation = "update" ∧
      strContains (sync_determine_operation inp).reason "Code changed") ∧
    (changed_files fp inp = ["test"] →
      (sync_determine_operation inp).operation = "test") ∧
    (changed_files fp inp = ["example"] →
      (sync_determine_operation inp).operation = "verify") ∧
    (2 ≤ (changed_files fp inp).length →
      (sync_determine_operation inp).operation = "analyze_conflict" ∧
      strContains (sync_determine_operation inp).reason
        "Multiple files changed" ∧
      ((sync_determine_operation inp).details.lookup "changed_files"
        = some (DVal.ls (changed_files fp inp)))) := by
  have hs : sync_determine_operation inp = tier3_fingerprint fp inp := by
    rw [sync_eq_tier23 inp h1, tier23_some inp fp h2]
  refine ⟨?_, ?_, ?_, ?_, ?_⟩
  · intro hch
    have hd : sync_determine_operation inp = single_change "prompt" inp := by
      rw [hs]; unfold tier3_fingerprint; rw [if_neg h3]; simp [h4, hch]
    rw [hd]
    unfold single_change
    rw [if_pos rfl]
    constructor
    · intro hdeps; rw [if_pos hdeps]
    · intro hdeps; rw [if_neg (by simp [hdeps])]
  · intro hch
    have hd : sync_determine_operation inp = single_change "code" inp := by
      rw [hs]; unfold tier3_fingerprint; rw [if_neg h3]; simp [h4, hch]
    rw [hd]
    unfold single_change
    rw [if_neg (by decide), if_pos rfl]
    exact ⟨rfl, ⟨[], " - update prompt to match".data, rfl⟩⟩
  · intro hch
    have hd : sync_determine_operation inp = single_change "test" inp := by
      rw [hs]; unfold tier3_fingerprint; rw [if_neg h3]; simp [h4, hch]
    rw [hd]
    unfold single_change
    rw [if_neg (by decide), if_neg (by decide), if_pos rfl]
  · intro hch
    have hd : sync_determine_operation inp = single_change "example" inp := by
      rw [hs]; unfold tier3_fingerprint; rw [if_neg h3]; simp [h4, hch]
    rw [hd]
    unfold single_change
    rw [if_neg (by decide), if_neg (by decide), if_neg (by decide)]
  · intro hlen
    cases hch : changed_files fp inp with
    | nil => rw [hch] at hlen; simp at hlen
    | cons a t =>
        cases t with
        | nil => rw [hch] at hlen; simp at hlen
        | cons b t2 =>
            have hd : sync_determine_operation inp =
                { operation := "analyze_conflict"
                  reason := "Multiple files changed: " ++
                    String.intercalate ", " (a :: b :: t2)
                  confidence := 1/2, estimated_cost := 0
                  details := [("changed_files", DVal.ls (a :: b :: t2))] } := by
              rw [hs]; unfold tier3_fingerprint; rw [if_neg h3]; simp [h4, hch]
            rw [hd]
            refine ⟨rfl, ⟨[], ": ".data ++
              (String.intercalate ", " (a :: b :: t2)).data, ?_⟩, rfl⟩
            rw [String.data_append, List.nil_append, ← List.append_assoc]
            rfl

/-- Witness for claim C2 at a concrete state where only the code changed. -/
theorem claim_C2_witness :
    (sync_determine_operation inpC2).operation = "update" := by
  have h := claim_C2_changed_files inpC2 fpGen rfl rfl (by decide) (by decide)
  exact (h.2.1 (by decide)).1

/-- Claim C3: with no Fingerprint and no Tier 1 rule firing: an absent
prompt yields nothing with reason No prompt file and no history; a present
prompt without dependency markers yields generate with a reason containing
New prompt ready and details has_dependencies false; a present prompt with
dependency markers yields auto-deps with a reason containing New prompt
with dependencies detected, details has_dependencies true and
fingerprint_found false. -/
theorem claim_C3_no_fingerprint (inp : SyncInputs)
    (h1 : tier1_passes inp = true) (h2 : inp.fingerprint = none) :
    (inp.promptHash = none →
      (sync_determine_operation inp).operation = "nothing" ∧
      (sync_determine_operation inp).reason = "No prompt file and no history") ∧
    (inp.promptHash ≠ none → inp.promptHasDeps = false →
      (sync_determine_operation inp).operation = "generate" ∧
      strContains (sync_determine_operation inp).reason "New prompt ready" ∧
      ((sync_determine_operation inp).details.lookup "has_dependencies"
        = some (DVal.b false))) ∧
    (inp.promptHash ≠ none → inp.promptHasDeps = true →
      (sync_determine_operation inp).operation = "auto-deps" ∧
      strContains (sync_determine_operation inp).reason
        "New prompt with dependencies detected" ∧
      ((sync_determine_operation inp).details.lookup "has_dependencies"
        = some (DVal.b true)) ∧
      ((sync_determine_operation inp).details.lookup "fingerprint_found"
        = some (DVal.b false))) := by
  have hs : sync_determine_operation inp = tier2_no_fingerprint inp := by
    rw [sync_eq_tier23 inp h1]; simp [tier23, h2]
  refine ⟨?_, ?_, ?_⟩
  · intro hp
    rw [hs]; unfold tier2_no_fingerprint; rw [if_pos hp]
    exact ⟨rfl, rfl⟩
  · intro hp hdeps
    rw [hs]; unfold tier2_no_fingerprint
    rw [if_neg hp, if_neg (by simp [hdeps])]
    exact ⟨rfl, ⟨[], [], rfl⟩, rfl⟩
  · intro hp hdeps
    rw [hs]; unfold tier2_no_fingerprint; rw [if_neg hp, if_pos hdeps]
    exact ⟨rfl, ⟨[], [], rfl⟩, rfl, rfl⟩

/-- Witness for claim C3 at a concrete fresh unit with a plain prompt. -/
theorem claim_C3_witness :
    (sync_determine_operation inpC3).operation = "generate" := by
  have h := claim_C3_no_fingerprint inpC3 rfl rfl
  exact (h.2.1 (by decide) rfl).1

/-- Claim C4: with a RunReport and a clean exit code: positive failed
tests yield fix with a reason containing Test failures detected whatever
the skip flags are; coverage below target with skipTests false yields test
with the reason Coverage X% below target Y% rendered to one decimal place;
coverage below target with skipTests true yields all_synced with a reason
mentioning that tests are skipped, never test. -/
theorem claim_C4_runreport_rules (inp : SyncInputs) (rr : RunReport)
    (h1 : inp.runReport = some rr) (h2 : rr.exit_code = 0) :
    (0 < rr.tests_failed →
      (sync_determine_operation inp).operation = "fix" ∧
      strContains (sync_determine_operation inp).reason
        "Test failures detected") ∧
    (rr.tests_failed = 0 → rr.coverage < inp.targetCoverage →
      inp.skipTests = false →
      (sync_determine_operation inp).operation = "test" ∧
      (sync_determine_operation inp).reason =
        "Coverage " ++ fmt1 rr.coverage ++ "% below target " ++
          fmt1 inp.targetCoverage ++ "%") ∧
    (rr.tests_failed = 0 → rr.coverage < inp.targetCoverage →
      inp.skipTests = true →
      (sync_determine_operation inp).operation = "all_synced" ∧
      strContains (sync_determine_operation inp).reason "tests skipped" ∧
      (sync_determine_operation inp).operation ≠ "test") := by
  refine ⟨?_, ?_, ?_⟩
  · intro hf
    have hd : sync_determine_operation inp =
        { operation := "fix"
          reason := "Test failures detected"
          confidence := 9/10, estimated_cost := 0
          details := [("tests_failed", DVal.i (Int.ofNat rr.tests_failed))] } := by
      simp [sync_determine_operation, h1, h2, hf]
    rw [hd]
    exact ⟨rfl, ⟨[], [], rfl⟩⟩
  · intro h3 h4 h5
    have hd : sync_determine_operation inp =
        { operation := "test"
          reason := "Coverage " ++ fmt1 rr.coverage ++ "% below target " ++
            fmt1 inp.targetCoverage ++ "%"
          confidence := 9/10, estimated_cost := 0
          details := [] } := by
      simp [sync_determine_operation, h1, h2, h3, h4, h5]
    rw [hd]
    exact ⟨rfl, rfl⟩
  · intro h3 h4 h5
    have hd : sync_determine_operation inp =
        { operation := "all_synced"
          reason := "Coverage below target but tests skipped by flag"
          confidence := 9/10, estimated_cost := 0
          details := [("skip_tests", DVal.b true)] } := by
      simp [sync_determine_operation, h1, h2, h3, h4, h5]
    rw [hd]
    exact ⟨rfl, ⟨"Coverage below target but ".data, " by flag".data, rfl⟩,
      by decide⟩

/-- Witness for claim C4 at a concrete report with two failing tests. -/
theorem claim_C4_witness :
    (sync_determine_operation inpC4).operation = "fix" := by
  have h := claim_C4_runreport_rules inpC4 rrFailures rfl rfl
  exact (h.1 (by decide)).1

/-- Claim C5: with a Fingerprint whose last command was auto-deps and the
code file still missing (and no Tier 1 rule firing), the decision is
generate and never auto-deps again, with a reason containing Auto-deps
completed, now generate missing code file, confidence 0.90 and details
auto_deps_completed true. -/
theorem claim_C5_auto_deps (inp : SyncInputs) (fp : Fingerprint)
    (h1 : tier1_passes inp = true) (h2 : inp.fingerprint = some fp)
    (h3 : fp.command = "auto-deps") (h4 : inp.codeHash = none) :
    (sync_determine_operation inp).operation = "generate" ∧
    (sync_determine_operation inp).operation ≠ "auto-deps" ∧
    strContains (sync_determine_operation inp).reason
      "Auto-deps completed, now generate missing code file" ∧
    (sync_determine_operation inp).confidence = 9/10 ∧
    ((sync_determine_operation inp).details.lookup "auto_deps_completed"
      = some (DVal.b true)) := by
  have hs : sync_determine_operation inp = tier3_fingerprint fp inp := by
    rw [sync_eq_tier23 inp h1, tier23_some inp fp h2]
  rw [hs]
  unfold tier3_fingerprint
  rw [if_pos ⟨h3, h4⟩]
  exact ⟨rfl, by decide, ⟨[], [], rfl⟩, rfl, rfl⟩

/-- Witness for claim C5 at the concrete completed-auto-deps state. -/
theorem claim_C5_witness :
    (sync_determine_operation inpC5).operation = "generate" ∧
    (sync_determine_operation inpC5).confidence = 9/10 := by
  have h := claim_C5_auto_deps inpC5 fpAutoDeps rfl rfl rfl rfl
  exact ⟨h.1, h.2.2.2.1⟩

/-- Claim C6: the Conflict Resolver is a total function into SyncDecision,
so no exception propagates; a missing template, an exception during
invocation, and an unparsable reply (non-JSON or missing required keys)
each yield fail_and_request_manual_merge with confidence 0; a parsed reply
below the acceptance threshold yields fail_and_request_manual_merge with a
reason containing LLM confidence too low while preserving the reported
confidence; a parsed reply at or above the threshold yields the reported
next_operation verbatim, reason LLM analysis: plus the reported reason,
the reported confidence, and the invocation cost as estimated_cost. -/
theorem claim_C6_conflict_resolver (tmpl : Option String) (o : LLMOutcome)
    (th : ℚ) (s : String) (p : ParsedReply) (c : ℚ) :
    (tmpl = none →
      (analyze_conflict_with_llm tmpl o th).operation =
        "fail_and_request_manual_merge" ∧
      (analyze_conflict_with_llm tmpl o th).confidence = 0) ∧
    (tmpl = some s → o = .exn →
      (analyze_conflict_with_llm tmpl o th).operation =
        "fail_and_request_manual_merge" ∧
      (analyze_conflict_with_llm tmpl o th).confidence = 0) ∧
    (tmpl = some s → o = .reply none c →
      (analyze_conflict_with_llm tmpl o th).operation =
        "fail_and_request_manual_merge" ∧
      (analyze_conflict_with_llm tmpl o th).confidence = 0) ∧
    (tmpl = some s → o = .reply (some p) c → p.confidence < th →
      (analyze_conflict_with_llm tmpl o th).operation =
        "fail_and_request_manual_merge" ∧
      strContains (analyze_conflict_with_llm tmpl o th).reason
        "LLM confidence too low" ∧
      (analyze_conflict_with_llm tmpl o th).confidence = p.confidence) ∧
    (tmpl = some s → o = .reply (some p) c → th ≤ p.confidence →
      (analyze_conflict_with_llm tmpl o th).operation = p.next_operation ∧
      (analyze_conflict_with_llm tmpl o th).reason =
        "LLM analysis: " ++ p.reason ∧
      (analyze_conflict_with_llm tmpl o th).confidence = p.confidence ∧
      (analyze_conflict_with_llm tmpl o th).estimated_cost = c) := by
  refine ⟨?_, ?_, ?_, ?_, ?_⟩
  · intro ht; subst ht; exact ⟨rfl, rfl⟩
  · intro ht ho; subst ht; subst ho; exact ⟨rfl, rfl⟩
  · intro ht ho; subst ht; subst ho; exact ⟨rfl, rfl⟩
  · intro ht ho hlow
    subst ht; subst ho
    simp only [analyze_conflict_with_llm]
    rw [if_neg (not_le.mpr hlow)]
    exact ⟨rfl, ⟨[], [], rfl⟩, rfl⟩
  · intro ht ho hhigh
    subst ht; subst ho
    simp only [analyze_conflict_with_llm]
    rw [if_pos hhigh]
    exact ⟨rfl, rfl, rfl, rfl⟩

/-- Claim C7: acquiring over a lock file recording a live PID of another
process fails with a held error whose message names the holder PID and
leaves the lock file unchanged; acquiring over a lock file recording a
dead PID reclaims the lock, rewriting the file with the caller PID. -/
theorem claim_C7_lock_acquire (alive : Nat → Bool) (self p : Nat) :
    (p ≠ self → alive p = true →
      SyncLock_acquire alive self (some p) =
        .held ("Lock held by running process " ++ toString p) (some p) ∧
      strContains ("Lock held by running process " ++ toString p)
        (toString p)) ∧
    (alive p = false →
      SyncLock_acquire alive self (some p) = .ok (some self)) := by
  constructor
  · intro hne hal
    simp only [SyncLock_acquire]
    rw [if_neg hne, if_pos hal]
    refine ⟨rfl, ⟨"Lock held by running process ".data, [], ?_⟩⟩
    simp [String.data_append]
  · intro hdead
    simp only [SyncLock_acquire]
    by_cases hps : p = self
    · rw [if_pos hps, hps]
    · rw [if_neg hps, if_neg (by simp [hdead])]

/-- Claim C8: writing a Fingerprint or RunReport and reading it back at the
same path yields the record unchanged; reading a missing or unparsable
metadata file yields absent rather than an error; and the content hash of
a nonexistent path is absent, never an error. -/
theorem claim_C8_state_store (store : String → Option FileData)
    (fs : String → Option String) (path : String) (fp : Fingerprint)
    (rr : RunReport) (s : String) :
    read_fingerprint (write_fingerprint store path fp) path = some fp ∧
    read_run_report (write_run_report store path rr) path = some rr ∧
    (store path = none →
      read_fingerprint store path = none ∧
      read_run_report store path = none) ∧
    (store path = some (.raw s) →
      read_fingerprint store path = none ∧
      read_run_report store path = none) ∧
    (fs path = none → calculate_sha256 fs path = none) := by
  refine ⟨?_, ?_, ?_, ?_, ?_⟩
  · simp [read_fingerprint, write_fingerprint]
  · simp [read_run_report, write_run_report]
  · intro h
    exact ⟨by simp [read_fingerprint, h], by simp [read_run_report, h]⟩
  · intro h
    exact ⟨by simp [read_fingerprint, h], by simp [read_run_report, h]⟩
  · intro h
    simp [calculate_sha256, h]

/-- Claim C9: with a Fingerprint, no Tier 1 rule firing, the auto-deps
special case not applying, no expected artifact missing and zero changed
artifacts: all three generated files present yields nothing with reason
All required files synchronized; a missing test file under skipTests still
yields nothing with a reason naming skip_tests=True; but a missing example
file leaves the workflow incomplete even under skipTests and the decision
is never nothing. -/
theorem claim_C9_zero_changed (inp : SyncInputs) (fp : Fingerprint)
    (h1 : tier1_passes inp = true) (h2 : inp.fingerprint = some fp)
    (h3 : ¬(fp.command = "auto-deps" ∧ inp.codeHash = none))
    (h4 : missing_expected (some fp) (presence inp) = [])
    (h5 : changed_files fp inp = []) :
    (inp.codeHash.isSome = true → inp.exampleHash.isSome = true →
      inp.testHash.isSome = true →
      (sync_determine_operation inp).operation = "nothing" ∧
      (sync_determine_operation inp).reason =
        "All required files synchronized") ∧
    (inp.codeHash.isSome = true → inp.exampleHash.isSome = true →
      inp.testHash = none → inp.skipTests = true →
      (sync_determine_operation inp).operation = "nothing" ∧
      strContains (sync_determine_operation inp).reason "skip_tests=True") ∧
    (inp.exampleHash = none →
      _is_workflow_complete (presence inp) inp.skipTests = false ∧
      (sync_determine_operation inp).operation ≠ "nothing") := by
  have hs : sync_determine_operation inp = tier3_fingerprint fp inp := by
    rw [sync_eq_tier23 inp h1, tier23_some inp fp h2]
  refine ⟨?_, ?_, ?_⟩
  · intro hc he ht
    have hcomp : _is_workflow_complete (presence inp) inp.skipTests = true := by
      simp [_is_workflow_complete, presence, hc, he, ht]
    have htest : (presence inp).hasTest = true := by simp [presence, ht]
    have hd : sync_determine_operation inp =
        { operation := "nothing"
          reason := "All required files synchronized"
          confidence := 1, estimated_cost := 0, details := [] } := by
      rw [hs]; unfold tier3_fingerprint; rw [if_neg h3]
      simp [h4, h5, hcomp, htest]
    rw [hd]
    exact ⟨rfl, rfl⟩
  · intro hc he ht hskip
    have hcomp : _is_workflow_complete (presence inp) inp.skipTests = true := by
      simp [_is_workflow_complete, presence, hc, he, hskip]
    have htest : (presence inp).hasTest = false := by simp [presence, ht]
    have hd : sync_determine_operation inp =
        { operation := "nothing"
          reason := "All required files synchronized (skip_tests=True)"
          confidence := 1, estimated_cost := 0
          details := [("skip_tests", DVal.b true)] } := by
      rw [hs]; unfold tier3_fingerprint; rw [if_neg h3]
      simp [h4, h5, hcomp, htest]
    rw [hd]
    exact ⟨rfl,
      ⟨"All required files synchronized (".data, ")".data, rfl⟩⟩
  · intro he
    have hex : (presence inp).hasExample = false := by simp [presence, he]
    have hcomp : _is_workflow_complete (presence inp) inp.skipTests = false := by
      simp [_is_workflow_complete, presence, he]
    refine ⟨hcomp, ?_⟩
    rw [hs]; unfold tier3_fingerprint; rw [if_neg h3]
    by_cases hcd : (presence inp).hasCode = true
    · simp [h4, h5, hcomp, hex, hcd]
    · simp [h4, h5, hcomp, hex, hcd]

/-- Witness for claim C9 at the concrete fully synchronized state. -/
theorem claim_C9_witness :
    (sync_determine_operation inpC9).operation = "nothing" := by
  have h := claim_C9_zero_changed inpC9 fpSynced rfl rfl (by decide)
    (by decide) (by decide)
  exact (h.1 rfl rfl rfl).1

/-- Claim C10: with no Fingerprint nothing is expected, so for every
presence state validate_expected_files yields the empty mapping and no
expected artifact can be reported missing. -/
theorem claim_C10_validate_no_fingerprint (p : ArtifactPresence) :
    validate_expected_files none p = [] ∧ missing_expected none p = [] :=
  ⟨rfl, rfl⟩

end PddSync
